import Mathlib

/-!
Shallow embedding of the private-game lifecycle service in
src/backend/src/services/privateService.js.

The service orchestrates two record stores (Game, PrivateGame) and an
external gateway.  The stores are modelled as in-memory lists together
with an auto-increment id counter; each service function is a pure
function from a store state to a result paired with the next store
state.  The gateway's response is passed in explicitly as an
`Option String` (the current code uses a hardcoded constant, kept here
as `hardcodedLink`; a JavaScript-falsy response, i.e. `undefined` or
the empty string, is `none` or `some ""`).
-/

/-- Modelled from the spec: the Game model file
(src/backend/src/models/Game.js) is not among the sources; per the spec
the status is an enumerated value of which only ACTIVE is exercised by
this core. -/
inductive GameStatus where
  | ACTIVE
deriving DecidableEq, Repr

/-- A Game record: generated unique id plus status. -/
structure Game where
  id : Nat
  status : GameStatus
deriving DecidableEq, Repr

/-- A PrivateGame record, exactly the fields the service stores via
Priv.create: id (shared with the Game), passwd, link, maxPlayers,
currentPlayers. -/
structure PrivateGame where
  id : Nat
  passwd : String
  link : String
  maxPlayers : Int
  currentPlayers : Int
deriving DecidableEq, Repr

/-- The relational store backing the service: the Game table, the
PrivateGame table, and the auto-increment counter for generated ids. -/
structure Store where
  games : List Game
  privs : List PrivateGame
  nextId : Nat
deriving DecidableEq, Repr

/-- The empty database (auto-increment ids start at 1). -/
def initStore : Store := { games := [], privs := [], nextId := 1 }

/-- The hardcoded gateway endpoint in the current code
(the commented-out axios call is replaced by this constant). -/
def hardcodedLink : String := "http://localhost:3000/api/privateGames"

/-- JavaScript truthiness of the gateway's response: `!link` is true
when the value is undefined or the empty string. -/
def jsFalsy : Option String → Bool
  | none => true
  | some s => s == ""

/-- Game.create: inserts a row with a fresh generated id. -/
def gameCreate (st : Store) (status : GameStatus) : Game × Store :=
  let g : Game := { id := st.nextId, status := status }
  (g, { st with games := st.games ++ [g], nextId := st.nextId + 1 })

/-- Priv.create: inserts the given PrivateGame row. -/
def privCreate (st : Store) (p : PrivateGame) : PrivateGame × Store :=
  (p, { st with privs := st.privs ++ [p] })

/-- The message of the error thrown when the gateway yields no endpoint. -/
def noEndpointMsg : String := "No se pudo obtener el endpoint de la partida privada"

/-- The catch-block wrapping in createPrivateGame: the rethrown error's
message is the operation-scoped text followed by the cause's message. -/
def creationError (msg : String) : String := "Error creando partida privada: " ++ msg

/-- createPrivateGame(passwd, maxPlayers): checks the gateway link,
creates a Game row with status ACTIVE, creates a PrivateGame row
sharing its id, and returns the new row's link.  A falsy link throws,
and the catch block rethrows the wrapped message; the throw happens
before either create, so the store is unchanged on that path. -/
def createPrivateGame (gatewayLink : Option String) (passwd : String)
    (maxPlayers : Int) (st : Store) : Except String String × Store :=
  match gatewayLink with
  | none => (Except.error (creationError noEndpointMsg), st)
  | some link =>
    if link == "" then
      (Except.error (creationError noEndpointMsg), st)
    else
      let (newGame, st1) := gameCreate st GameStatus.ACTIVE
      let (newPrivateGame, st2) := privCreate st1
        { id := newGame.id, passwd := passwd, link := link,
          maxPlayers := maxPlayers, currentPlayers := 0 }
      (Except.ok newPrivateGame.link, st2)

/-- The service as currently compiled: the gateway response is the
hardcoded constant. -/
def createPrivateGameCurrent (passwd : String) (maxPlayers : Int)
    (st : Store) : Except String String × Store :=
  createPrivateGame (some hardcodedLink) passwd maxPlayers st

/-- An entry of the listing: the attributes selected by findAll,
exactly id, maxPlayers and currentPlayers (passwd and link are not
selected, hence absent from this type). -/
structure PublicGame where
  id : Nat
  maxPlayers : Int
  currentPlayers : Int
deriving DecidableEq, Repr

/-- Projection of a stored row to its listed attributes. -/
def toPublic (p : PrivateGame) : PublicGame :=
  { id := p.id, maxPlayers := p.maxPlayers, currentPlayers := p.currentPlayers }

/-- The object returned by getPrivateGames: the list is carried under
the key privateGames. -/
structure PrivateGamesListing where
  privateGames : List PublicGame
deriving DecidableEq, Repr

/-- getPrivateGames(): findAll with attributes id, maxPlayers,
currentPlayers, wrapped in an object. -/
def getPrivateGames (st : Store) : PrivateGamesListing :=
  { privateGames := st.privs.map toPublic }

/-- The object returned by a successful join: only the link. -/
structure JoinResult where
  link : String
deriving DecidableEq, Repr

/-- joinPrivateGame(gameId, passwd): findOne with both id and passwd in
the where clause; null when no row matches, otherwise an object
holding the stored link. -/
def joinPrivateGame (gameId : Nat) (passwd : String) (st : Store) :
    Option JoinResult :=
  match st.privs.find? (fun p => p.id == gameId && p.passwd == passwd) with
  | none => none
  | some p => some { link := p.link }

/-- deletePrivateGame(gameId): destroy by id returns the number of rows
removed; a zero count is JavaScript-falsy and is returned as null. -/
def deletePrivateGame (gameId : Nat) (st : Store) : Option Nat × Store :=
  let removed := (st.privs.filter (fun p => p.id == gameId)).length
  let st' : Store :=
    { st with privs := st.privs.filter (fun p => !(p.id == gameId)) }
  if removed == 0 then (none, st') else (some removed, st')

/-- getPlayers(gameId): findOne by id; null when absent, otherwise the
stored currentPlayers. -/
def getPlayers (gameId : Nat) (st : Store) : Option Int :=
  match st.privs.find? (fun p => p.id == gameId) with
  | none => none
  | some p => some p.currentPlayers

/-- One invocation of a service operation, with its inputs (the gateway
response is an input of create). -/
inductive Op where
  | create (gatewayLink : Option String) (passwd : String) (maxPlayers : Int)
  | list
  | join (gameId : Nat) (passwd : String)
  | del (gameId : Nat)
  | players (gameId : Nat)

/-- The store state after one operation (reads leave it unchanged). -/
def applyOp (st : Store) (op : Op) : Store :=
  match op with
  | Op.create g p m => (createPrivateGame g p m st).2
  | Op.list => st
  | Op.join _ _ => st
  | Op.del g => (deletePrivateGame g st).2
  | Op.players _ => st

/-- The store state reached from the empty database by a sequence of
service operations. -/
def runOps (ops : List Op) : Store := ops.foldl applyOp initStore

/-- A sample stored PrivateGame row used by concrete witnesses. -/
def pW : PrivateGame :=
  { id := 1, passwd := "abc123", link := "http://localhost:3000/api/privateGames",
    maxPlayers := 4, currentPlayers := 0 }

/-- A sample store holding one game pair, used by concrete witnesses. -/
def stW : Store :=
  { games := [{ id := 1, status := GameStatus.ACTIVE }], privs := [pW], nextId := 2 }

/-! ## Claim theorems -/

/-- Claim C1: a successful createPrivateGame appends exactly one Game
row with status ACTIVE and one PrivateGame row sharing its id, storing
passwd, the gateway endpoint as link, maxPlayers, and currentPlayers
equal to 0, and returns only the gateway's endpoint. -/
theorem createPrivateGame_success_spec (passwd : String) (maxPlayers : Int)
    (st : Store) (link : String) (h : jsFalsy (some link) = false) :
    (createPrivateGame (some link) passwd maxPlayers st).1 = Except.ok link ∧
    (createPrivateGame (some link) passwd maxPlayers st).2.games
      = st.games ++ [{ id := st.nextId, status := GameStatus.ACTIVE }] ∧
    (createPrivateGame (some link) passwd maxPlayers st).2.privs
      = st.privs ++ [{ id := st.nextId, passwd := passwd, link := link,
                       maxPlayers := maxPlayers, currentPlayers := 0 }] := by
  simp only [jsFalsy] at h
  simp [createPrivateGame, gameCreate, privCreate, h]

/-- Witness for C1 at a concrete input. -/
theorem createPrivateGame_success_spec_witness :
    jsFalsy (some "endpoint") = false ∧
    ((createPrivateGame (some "endpoint") "abc123" 4 initStore).1
        = Except.ok "endpoint" ∧
     (createPrivateGame (some "endpoint") "abc123" 4 initStore).2.games
        = initStore.games ++ [{ id := initStore.nextId, status := GameStatus.ACTIVE }] ∧
     (createPrivateGame (some "endpoint") "abc123" 4 initStore).2.privs
        = initStore.privs ++ [{ id := initStore.nextId, passwd := "abc123",
                                link := "endpoint", maxPlayers := 4,
                                currentPlayers := 0 }]) :=
  ⟨by decide, createPrivateGame_success_spec "abc123" 4 initStore "endpoint" (by decide)⟩

/-- Claim C3: when the gateway yields no endpoint (a falsy link), the
call fails with the wrapped creation error carrying the cause's
message, and the store is unchanged: no Game or PrivateGame row is
persisted. -/
theorem createPrivateGame_gateway_failure (passwd : String) (maxPlayers : Int)
    (st : Store) (gatewayLink : Option String)
    (h : jsFalsy gatewayLink = true) :
    createPrivateGame gatewayLink passwd maxPlayers st
      = (Except.error (creationError noEndpointMsg), st) := by
  cases gatewayLink with
  | none => simp [createPrivateGame]
  | some s =>
    simp only [jsFalsy] at h
    simp [createPrivateGame, h]

/-- Witness for C3 at a concrete input. -/
theorem createPrivateGame_gateway_failure_witness :
    jsFalsy none = true ∧
    createPrivateGame none "abc123" 4 initStore
      = (Except.error (creationError noEndpointMsg), initStore) :=
  ⟨by decide, createPrivateGame_gateway_failure "abc123" 4 initStore none (by decide)⟩

/-- Claim C4: getPrivateGames lists one entry per stored PrivateGame,
each entry carrying exactly the attributes id, maxPlayers and
currentPlayers (the entry type has no passwd or link field). -/
theorem getPrivateGames_public_fields (st : Store) :
    (getPrivateGames st).privateGames
      = st.privs.map (fun p =>
          { id := p.id, maxPlayers := p.maxPlayers,
            currentPlayers := p.currentPlayers }) ∧
    (getPrivateGames st).privateGames.length = st.privs.length := by
  constructor
  · rfl
  · simp [getPrivateGames]

/-- Claim C6: deletePrivateGame never touches the Game table; the
games list after the call is the one before it. -/
theorem deletePrivateGame_preserves_games (gameId : Nat) (st : Store) :
    (deletePrivateGame gameId st).2.games = st.games := by
  simp only [deletePrivateGame]
  split <;> rfl

/-- The result component of deletePrivateGame, as a plain conditional
on the count of matching rows. -/
theorem deletePrivateGame_fst (gameId : Nat) (st : Store) :
    (deletePrivateGame gameId st).1 =
      if ((st.privs.filter (fun p => p.id == gameId)).length == 0) = true
      then none
      else some (st.privs.filter (fun p => p.id == gameId)).length := by
  simp only [deletePrivateGame]
  cases hc : ((st.privs.filter (fun p => p.id == gameId)).length == 0) <;>
    simp [hc]

/-- The PrivateGame table after deletePrivateGame: the rows whose id
differs from the given one. -/
theorem deletePrivateGame_privs (gameId : Nat) (st : Store) :
    (deletePrivateGame gameId st).2.privs
      = st.privs.filter (fun p => !(p.id == gameId)) := by
  simp only [deletePrivateGame]
  cases hc : ((st.privs.filter (fun p => p.id == gameId)).length == 0) <;>
    simp [hc]

/-- Claim C2: joinPrivateGame returns an object holding the stored link
iff a PrivateGame row matching both id and passwd exists; any mismatch
(wrong id, wrong password, or both) yields null, and the function is
total, so the mismatch path never throws. -/
theorem joinPrivateGame_spec (gameId : Nat) (passwd : String) (st : Store) :
    ((joinPrivateGame gameId passwd st).isSome ↔
       ∃ p, p ∈ st.privs ∧ p.id = gameId ∧ p.passwd = passwd) ∧
    (∀ r, joinPrivateGame gameId passwd st = some r →
       ∃ p, p ∈ st.privs ∧ p.id = gameId ∧ p.passwd = passwd ∧
         r.link = p.link) := by
  cases hfind : st.privs.find? (fun p => p.id == gameId && p.passwd == passwd) with
  | none =>
    have hnone : joinPrivateGame gameId passwd st = none := by
      simp [joinPrivateGame, hfind]
    have hall := List.find?_eq_none.mp hfind
    refine ⟨?_, ?_⟩
    · rw [hnone]
      simp only [Option.isSome_none, Bool.false_eq_true, false_iff]
      rintro ⟨p, hp, hid, hpw⟩
      have := hall p hp
      simp [hid, hpw] at this
    · intro r hr
      rw [hnone] at hr
      exact absurd hr (by simp)
  | some p =>
    have hjoin : joinPrivateGame gameId passwd st = some { link := p.link } := by
      simp [joinPrivateGame, hfind]
    have hmem := List.mem_of_find?_eq_some hfind
    have hpred := List.find?_some hfind
    simp only [Bool.and_eq_true, beq_iff_eq] at hpred
    refine ⟨?_, ?_⟩
    · rw [hjoin]
      simp only [Option.isSome_some, true_iff]
      exact ⟨p, hmem, hpred.1, hpred.2⟩
    · intro r hr
      rw [hjoin] at hr
      have hr' : r = { link := p.link } := by
        injection hr with h
        exact h.symm
      exact ⟨p, hmem, hpred.1, hpred.2, by rw [hr']⟩

/-- Witness for C2: the inner implication applied at a concrete store,
id, password and result. -/
theorem joinPrivateGame_spec_witness :
    joinPrivateGame 1 "abc123" stW
        = some { link := "http://localhost:3000/api/privateGames" } ∧
    (∃ p, p ∈ stW.privs ∧ p.id = 1 ∧ p.passwd = "abc123" ∧
      JoinResult.link { link := "http://localhost:3000/api/privateGames" }
        = p.link) :=
  ⟨by decide,
   (joinPrivateGame_spec 1 "abc123" stW).2
     { link := "http://localhost:3000/api/privateGames" } (by decide)⟩

/-- Claim C5: deleting an existing id returns a positive row count and
removes the row, so an immediate second delete of the same id returns
null; deleting an id with no row returns null. -/
theorem deletePrivateGame_spec (gameId : Nat) (st : Store) :
    ((∃ p, p ∈ st.privs ∧ p.id = gameId) →
       (∃ n, (deletePrivateGame gameId st).1 = some n ∧ 0 < n) ∧
       (deletePrivateGame gameId (deletePrivateGame gameId st).2).1 = none) ∧
    ((∀ p, p ∈ st.privs → p.id ≠ gameId) →
       (deletePrivateGame gameId st).1 = none) := by
  refine ⟨?_, ?_⟩
  · rintro ⟨p, hp, hid⟩
    have hmemf : p ∈ st.privs.filter (fun q => q.id == gameId) := by
      rw [List.mem_filter]
      exact ⟨hp, by simp [hid]⟩
    have hpos : 0 < (st.privs.filter (fun q => q.id == gameId)).length :=
      List.length_pos_of_mem hmemf
    have hne : ((st.privs.filter (fun q => q.id == gameId)).length == 0) = false := by
      simp only [beq_eq_false_iff_ne, ne_eq]
      exact Nat.pos_iff_ne_zero.mp hpos
    refine ⟨⟨(st.privs.filter (fun q => q.id == gameId)).length, ?_, hpos⟩, ?_⟩
    · rw [deletePrivateGame_fst, hne]
      simp
    · have hempty : ((deletePrivateGame gameId st).2.privs.filter
          (fun q => q.id == gameId)) = [] := by
        rw [deletePrivateGame_privs, List.filter_filter]
        rw [List.filter_eq_nil_iff]
        intro a _
        simp
      rw [deletePrivateGame_fst, hempty]
      simp
  · intro hnone
    have hempty : st.privs.filter (fun q => q.id == gameId) = [] := by
      rw [List.filter_eq_nil_iff]
      intro a ha
      simp [hnone a ha]
    rw [deletePrivateGame_fst, hempty]
    simp

/-- Witness for C5 at a concrete store and id. -/
theorem deletePrivateGame_spec_witness :
    (∃ p, p ∈ stW.privs ∧ p.id = 1) ∧
    ((∃ n, (deletePrivateGame 1 stW).1 = some n ∧ 0 < n) ∧
     (deletePrivateGame 1 (deletePrivateGame 1 stW).2).1 = none) :=
  ⟨⟨pW, by simp [stW], rfl⟩,
   (deletePrivateGame_spec 1 stW).1 ⟨pW, by simp [stW], rfl⟩⟩

/-- Claim C7: getPlayers returns the stored currentPlayers when the
PrivateGame row exists, null when no row has the id, and null for an
id immediately after that id was deleted. -/
theorem getPlayers_spec (gameId : Nat) (st : Store) :
    ((∃ p, p ∈ st.privs ∧ p.id = gameId) →
       ∃ p, p ∈ st.privs ∧ p.id = gameId ∧
         getPlayers gameId st = some p.currentPlayers) ∧
    ((∀ p, p ∈ st.privs → p.id ≠ gameId) → getPlayers gameId st = none) ∧
    getPlayers gameId (deletePrivateGame gameId st).2 = none := by
  refine ⟨?_, ?_, ?_⟩
  · rintro ⟨p, hp, hid⟩
    have hsome : (st.privs.find? (fun q => q.id == gameId)).isSome := by
      rw [List.find?_isSome]
      exact ⟨p, hp, by simp [hid]⟩
    obtain ⟨q, hq⟩ := Option.isSome_iff_exists.mp hsome
    have hqmem := List.mem_of_find?_eq_some hq
    have hqid := List.find?_some hq
    simp only [beq_iff_eq] at hqid
    exact ⟨q, hqmem, hqid, by simp [getPlayers, hq]⟩
  · intro hnone
    have hfind : st.privs.find? (fun q => q.id == gameId) = none := by
      rw [List.find?_eq_none]
      intro x hx
      simp [hnone x hx]
    simp [getPlayers, hfind]
  · have hfind : (deletePrivateGame gameId st).2.privs.find?
        (fun q => q.id == gameId) = none := by
      rw [deletePrivateGame_privs, List.find?_eq_none]
      intro x hx
      rw [List.mem_filter] at hx
      simpa using hx.2
    simp [getPlayers, hfind]

/-- Witness for C7 at a concrete store and id. -/
theorem getPlayers_spec_witness :
    (∃ p, p ∈ stW.privs ∧ p.id = 1) ∧
    (∃ p, p ∈ stW.privs ∧ p.id = 1 ∧ getPlayers 1 stW = some p.currentPlayers) :=
  ⟨⟨pW, by simp [stW], rfl⟩, (getPlayers_spec 1 stW).1 ⟨pW, by simp [stW], rfl⟩⟩

/-- Claim C8: two join attempts with passwords that both fail to match,
and a join attempt against an id with no row at all, are
observationally identical: all three return null, so wrong password
and nonexistent game cannot be distinguished by the caller. -/
theorem joinPrivateGame_anti_enumeration (st : Store) (gameId : Nat)
    (pw1 pw2 : String) (otherId : Nat)
    (h1 : ∀ p, p ∈ st.privs → ¬(p.id = gameId ∧ p.passwd = pw1))
    (h2 : ∀ p, p ∈ st.privs → ¬(p.id = gameId ∧ p.passwd = pw2))
    (h3 : ∀ p, p ∈ st.privs → p.id ≠ otherId) :
    joinPrivateGame gameId pw1 st = joinPrivateGame gameId pw2 st ∧
    joinPrivateGame gameId pw1 st = joinPrivateGame otherId pw1 st ∧
    joinPrivateGame gameId pw1 st = none := by
  have e1 : joinPrivateGame gameId pw1 st = none := by
    have hfind : st.privs.find? (fun p => p.id == gameId && p.passwd == pw1)
        = none := by
      rw [List.find?_eq_none]
      intro x hx
      simpa using h1 x hx
    simp [joinPrivateGame, hfind]
  have e2 : joinPrivateGame gameId pw2 st = none := by
    have hfind : st.privs.find? (fun p => p.id == gameId && p.passwd == pw2)
        = none := by
      rw [List.find?_eq_none]
      intro x hx
      simpa using h2 x hx
    simp [joinPrivateGame, hfind]
  have e3 : joinPrivateGame otherId pw1 st = none := by
    have hfind : st.privs.find? (fun p => p.id == otherId && p.passwd == pw1)
        = none := by
      rw [List.find?_eq_none]
      intro x hx
      have := h3 x hx
      simp only [Bool.and_eq_true, beq_iff_eq, not_and]
      intro hxi
      exact absurd hxi this
    simp [joinPrivateGame, hfind]
  exact ⟨e1.trans e2.symm, e1.trans e3.symm, e1⟩

/-- Witness for C8: two wrong passwords against the sample store and a
nonexistent id all yield null. -/
theorem joinPrivateGame_anti_enumeration_witness :
    joinPrivateGame 1 "wrongA" stW = joinPrivateGame 1 "wrongB" stW ∧
    joinPrivateGame 1 "wrongA" stW = joinPrivateGame 2 "wrongA" stW ∧
    joinPrivateGame 1 "wrongA" stW = none :=
  joinPrivateGame_anti_enumeration stW 1 "wrongA" "wrongB" 2
    (by decide) (by decide) (by decide)

/-- Every operation preserves the all-zero occupancy of the PrivateGame
table: create inserts currentPlayers = 0, delete only removes rows,
reads change nothing. -/
theorem applyOp_preserves_zero (st : Store) (op : Op)
    (h : st.privs.all (fun p => p.currentPlayers == 0) = true) :
    (applyOp st op).privs.all (fun p => p.currentPlayers == 0) = true := by
  cases op with
  | create g pw m =>
    cases g with
    | none => simpa [applyOp, createPrivateGame] using h
    | some link =>
      cases hl : (link == "") with
      | true => simpa [applyOp, createPrivateGame, hl] using h
      | false =>
        simp only [applyOp, createPrivateGame, hl, gameCreate, privCreate,
          List.all_append]
        simp [h]
  | list => simpa [applyOp] using h
  | join g pw => simpa [applyOp] using h
  | del g =>
    simp only [applyOp]
    rw [deletePrivateGame_privs]
    rw [List.all_eq_true] at h ⊢
    intro x hx
    rw [List.mem_filter] at hx
    exact h x hx.1
  | players g => simpa [applyOp] using h

/-- Folding any operation list preserves the all-zero occupancy. -/
theorem foldl_applyOp_preserves_zero (ops : List Op) :
    ∀ st : Store, st.privs.all (fun p => p.currentPlayers == 0) = true →
      ((ops.foldl applyOp st).privs.all (fun p => p.currentPlayers == 0))
        = true := by
  induction ops with
  | nil => intro st h; simpa using h
  | cons op rest ih =>
    intro st h
    rw [List.foldl_cons]
    exact ih _ (applyOp_preserves_zero st op h)

/-- Claim C9: in every store state reachable from the empty database by
any sequence of service operations, every PrivateGame row has
currentPlayers equal to 0. -/
theorem currentPlayers_always_zero (ops : List Op) :
    ((runOps ops).privs.all (fun p => p.currentPlayers == 0)) = true :=
  foldl_applyOp_preserves_zero ops initStore (by decide)

/-- Claim C10: createPrivateGame validates nothing: with the current
hardcoded gateway it succeeds for every passwd (the empty string
included) and every maxPlayers (negatives included), storing both
unchanged; for any negative maxPlayers the created row's occupancy 0
already exceeds its capacity. -/
theorem createPrivateGame_no_validation (passwd : String) (maxPlayers : Int)
    (st : Store) :
    (createPrivateGameCurrent passwd maxPlayers st).1 = Except.ok hardcodedLink ∧
    (createPrivateGameCurrent passwd maxPlayers st).2.privs
      = st.privs ++ [{ id := st.nextId, passwd := passwd, link := hardcodedLink,
                       maxPlayers := maxPlayers, currentPlayers := 0 }] ∧
    (maxPlayers < 0 →
      ∃ p, p ∈ (createPrivateGameCurrent passwd maxPlayers st).2.privs ∧
        p.maxPlayers < p.currentPlayers) := by
  have hfalse : (hardcodedLink == "") = false := by decide
  refine ⟨?_, ?_, ?_⟩
  · simp [createPrivateGameCurrent, createPrivateGame, hfalse, gameCreate,
      privCreate]
  · simp [createPrivateGameCurrent, createPrivateGame, hfalse, gameCreate,
      privCreate]
  · intro hneg
    refine ⟨{ id := st.nextId, passwd := passwd, link := hardcodedLink,
              maxPlayers := maxPlayers, currentPlayers := 0 }, ?_, hneg⟩
    simp [createPrivateGameCurrent, createPrivateGame, hfalse, gameCreate,
      privCreate]

/-- Witness for C10: the empty password and capacity -1 are accepted,
and the created row's occupancy exceeds its capacity. -/
theorem createPrivateGame_no_validation_witness :
    (-1 : Int) < 0 ∧
    (∃ p, p ∈ (createPrivateGameCurrent "" (-1) initStore).2.privs ∧
      p.maxPlayers < p.currentPlayers) :=
  ⟨by decide, (createPrivateGame_no_validation "" (-1) initStore).2.2 (by decide)⟩
